import Mathlib

/-!
Verification development for the Tarpaulin course/enrollment service.

The HTTP router (`src/api/courses.js`) is embedded as data: each route is the
list of middlewares it installs, exactly as written in the source, plus a
handler modelled as a pure function over an explicit database state.  The
model-layer functions that the router imports (`updateEnrollment`,
`createCsv`, `getCoursePage` from `models/course.js`) and the auth
middlewares (`lib/auth.js`) are not part of the source tree; they are
modelled from the specification, and each such definition says so in its
doc comment.
-/

namespace Tarpaulin

/-- Roles of identities (spec section 3: one of admin, instructor, student). -/
inductive Role where
  | admin
  | instructor
  | student
deriving DecidableEq, Repr

/-- An identity: identifier, display name, and role. -/
structure Identity where
  id : String
  name : String
  role : Role
deriving DecidableEq, Repr

/-- A course: identifier, descriptive fields, owning instructor reference and
the roster of enrolled student identifiers. -/
structure Course where
  courseId : String
  subject : String
  number : String
  term : String
  instructorId : String
  students : List String
deriving DecidableEq, Repr

/-- The persistent state seen by the service: the identity collection, the
course collection, and the `media/rosters` directory of exported CSV files
(filename paired with file bytes). -/
structure DbState where
  identities : List Identity
  courses : List Course
  rosterFiles : List (String × String)
deriving DecidableEq, Repr

/-- Look a course up by its identifier. -/
def findCourse (st : DbState) (cid : String) : Option Course :=
  st.courses.find? (fun c => c.courseId == cid)

/-- Does `sid` name an existing identity whose role is `student`? -/
def isStudentIdentity (st : DbState) (sid : String) : Bool :=
  st.identities.any (fun i => i.id == sid && i.role == Role.student)

/-- Result of an enrollment batch (spec section 4.2): `Applied` carries the
resulting roster size, `Rejected` carries the identifiers that failed
validation. -/
inductive EnrollResult where
  | Applied (rosterSize : Nat)
  | Rejected (offending : List String)
deriving DecidableEq, Repr

/-- Is the result a success? -/
def EnrollResult.isApplied : EnrollResult → Bool
  | .Applied _ => true
  | .Rejected _ => false

/-- Modelled from the spec: the validation step of the Enrollment Mutator
(section 4.2 step 1, sections 3/7/9 for the overlap rule); `updateEnrollment`
lives in `models/course.js`, which is not under `src/`.  An `add` identifier
is offending when it does not name an existing student-role identity, a
`remove` identifier is offending when it is not currently in the roster, and
an identifier appearing in both sets is a validation error. -/
def offendingIds (st : DbState) (roster add remove : List String) : List String :=
  add.filter (fun a => !(isStudentIdentity st a))
    ++ remove.filter (fun x => !(roster.contains x))
    ++ add.filter (fun a => remove.contains a)

/-- Modelled from the spec: the application step of the Enrollment Mutator
(section 4.2 step 2): removals first, then additions, re-adding a present
student being a no-op. -/
def applyRoster (roster add remove : List String) : List String :=
  let afterRemove := roster.filter (fun s => !(remove.contains s))
  afterRemove ++ add.filter (fun a => !(afterRemove.contains a))

/-- Replace the roster of course `cid` in the course collection. -/
def setCourseRoster (courses : List Course) (cid : String) (roster : List String) :
    List Course :=
  courses.map (fun c => if c.courseId == cid then { c with students := roster } else c)

/-- Modelled from the spec: `applyEnrollment` / `updateEnrollment`
(section 4.2); the implementation in `models/course.js` is not under `src/`.
Validates the whole batch, and either applies it as one atomic roster
replacement or rejects it with no state change. -/
def updateEnrollment (st : DbState) (add remove : List String) (cid : String) :
    EnrollResult × DbState :=
  match findCourse st cid with
  | none => (EnrollResult.Rejected [], st)
  | some c =>
    let off := offendingIds st c.students add remove
    if off.isEmpty then
      let roster := applyRoster c.students add remove
      (EnrollResult.Applied roster.length,
        { st with courses := setCourseRoster st.courses cid roster })
    else
      (EnrollResult.Rejected off, st)

/-- An HTTP response: status code and body text. -/
structure HttpResponse where
  status : Nat
  body : String
deriving DecidableEq, Repr

/-- The constant error message sent by the POST `/courses/:courseId/students`
handler on a rejected batch (src/api/courses.js line 151). -/
def enrollmentErrorMessage : String :=
  "Please make sure all the students to add/remove are valid."

/-- The handler body of POST `/courses/:courseId/students`
(src/api/courses.js lines 142-157): it calls `updateEnrollment` and answers
201 with an empty body on a truthy result, 400 with the constant error
message otherwise. -/
def postStudentsHandler (st : DbState) (add remove : List String) (cid : String) :
    HttpResponse × DbState :=
  let (result, st2) := updateEnrollment st add remove cid
  if result.isApplied then
    ({ status := 201, body := "" }, st2)
  else
    ({ status := 400, body := enrollmentErrorMessage }, st2)

/-- Operation kinds of the Authorization Engine (spec section 4.1). -/
inductive Operation where
  | ReadCourse
  | CreateCourse
  | UpdateCourse
  | DeleteCourse
  | ReadRoster
  | MutateRoster
  | ReadRosterExport
deriving DecidableEq, Repr

/-- Deny reason codes (spec section 4.1). -/
inductive Reason where
  | NotOwner
  | InsufficientRole
  | NotEnrolled
deriving DecidableEq, Repr

/-- Authorization decision (spec section 4.1). -/
inductive Decision where
  | Allow
  | Deny (reason : Reason)
deriving DecidableEq, Repr

/-- Modelled from the spec: the Authorization Engine decision matrix
(section 4.1); `lib/auth.js` is not under `src/`.  Admin is allowed
everything; an instructor is allowed the four course-scoped operations only
on a course it owns; a student is allowed only `ReadRoster` on a course it is
enrolled in. -/
def authorize (p : Identity) (op : Operation) (c : Course) : Decision :=
  match p.role with
  | Role.admin => Decision.Allow
  | Role.instructor =>
    match op with
    | Operation.UpdateCourse | Operation.ReadRoster
    | Operation.MutateRoster | Operation.ReadRosterExport =>
      if p.id == c.instructorId then Decision.Allow else Decision.Deny Reason.NotOwner
    | Operation.CreateCourse | Operation.DeleteCourse =>
      Decision.Deny Reason.InsufficientRole
    | Operation.ReadCourse => Decision.Deny Reason.InsufficientRole
  | Role.student =>
    match op with
    | Operation.ReadRoster =>
      if c.students.contains p.id then Decision.Allow else Decision.Deny Reason.NotEnrolled
    | _ => Decision.Deny Reason.InsufficientRole

/-- An incoming request: the resolved principal (none when unauthenticated),
the course id from the path, the enrollment body, the `page` query parameter
as it arrived (none when absent), and the outcomes of the body-shape
validations (spec: request body schema validation is an external
collaborator). -/
structure Request where
  auth : Option Identity
  courseId : String
  add : List String
  remove : List String
  page : Option String
  bodyValid : Bool
  enrollmentBodyValid : Bool
  instructorIdValid : Bool
deriving DecidableEq, Repr

/-- The middlewares installed by `src/api/courses.js` on its routes.  The
course-related authorization middleware is tagged with the operation the
route performs, matching the spec's `authorize(principal, operation,
course)` contract. -/
inductive Middleware where
  | requireAuthentication
  | authorizeAdminAccess
  | authorizeCourseRelatedAccess (op : Operation)
  | validateCourseId
  | validateInstructorId
  | validateCourseBody
  | validateEnrollmentBody
deriving DecidableEq, Repr

/-- Modelled from the spec: pass/fail semantics of each middleware
(`lib/auth.js` and `lib/validation.js` are not under `src/`).
`requireAuthentication` passes when a principal is resolved;
`authorizeAdminAccess` passes only for an admin principal;
`authorizeCourseRelatedAccess` passes when the Authorization Engine allows
the route's operation on the target course; `validateCourseId` passes when
the course exists. -/
def evalMiddleware (st : DbState) (r : Request) : Middleware → Bool
  | Middleware.requireAuthentication => r.auth.isSome
  | Middleware.authorizeAdminAccess =>
    match r.auth with
    | some p => p.role == Role.admin
    | none => false
  | Middleware.authorizeCourseRelatedAccess op =>
    match r.auth, findCourse st r.courseId with
    | some p, some c => authorize p op c == Decision.Allow
    | _, _ => false
  | Middleware.validateCourseId => (findCourse st r.courseId).isSome
  | Middleware.validateInstructorId => r.instructorIdValid
  | Middleware.validateCourseBody => r.bodyValid
  | Middleware.validateEnrollmentBody => r.enrollmentBodyValid

/-- Express runs a route's middlewares in order and invokes the handler only
when every middleware passes (a failing middleware responds and does not call
`next`). -/
def runChain (st : DbState) (r : Request) (ms : List Middleware) : Bool :=
  ms.all (evalMiddleware st r)

/-- GET `/courses` (src/api/courses.js line 34): no middleware. -/
def getCoursesChain : List Middleware := []

/-- POST `/courses` (src/api/courses.js lines 52-56). -/
def postCoursesChain : List Middleware :=
  [Middleware.requireAuthentication, Middleware.authorizeAdminAccess,
   Middleware.validateCourseBody, Middleware.validateInstructorId]

/-- GET `/courses/:courseId` (src/api/courses.js lines 70-71). -/
def getCourseByIdChain : List Middleware := [Middleware.validateCourseId]

/-- PATCH `/courses/:courseId` (src/api/courses.js lines 85-89). -/
def patchCourseChain : List Middleware :=
  [Middleware.requireAuthentication, Middleware.validateCourseId,
   Middleware.authorizeCourseRelatedAccess Operation.UpdateCourse,
   Middleware.validateCourseBody]

/-- DELETE `/courses/:courseId` (src/api/courses.js lines 103-106). -/
def deleteCourseChain : List Middleware :=
  [Middleware.requireAuthentication, Middleware.validateCourseId,
   Middleware.authorizeAdminAccess]

/-- GET `/courses/:courseId/students` (src/api/courses.js lines 120-123). -/
def getStudentsChain : List Middleware :=
  [Middleware.requireAuthentication, Middleware.validateCourseId,
   Middleware.authorizeCourseRelatedAccess Operation.ReadRoster]

/-- POST `/courses/:courseId/students` (src/api/courses.js lines 137-141). -/
def postStudentsChain : List Middleware :=
  [Middleware.requireAuthentication, Middleware.validateCourseId,
   Middleware.authorizeCourseRelatedAccess Operation.MutateRoster,
   Middleware.validateEnrollmentBody]

/-- `router.use('/roster', express.static(...))` (src/api/courses.js
line 163): the static file route carries no middleware at all. -/
def staticRosterChain : List Middleware := []

/-- GET `/courses/:courseId/roster` (src/api/courses.js lines 168-171). -/
def getRosterChain : List Middleware :=
  [Middleware.requireAuthentication, Middleware.validateCourseId,
   Middleware.authorizeCourseRelatedAccess Operation.ReadRosterExport]

/-- GET `/courses/:courseId/assignments` (src/api/courses.js lines 185-186). -/
def getAssignmentsChain : List Middleware := [Middleware.validateCourseId]

/-- Full processing of POST `/courses/:courseId/students`
(src/api/courses.js lines 137-157): the middleware chain runs first; the
handler, and with it `updateEnrollment`, runs only when the whole chain
passes.  The boolean component records whether `updateEnrollment` was
invoked. -/
def postStudentsRoute (st : DbState) (r : Request) : HttpResponse × DbState × Bool :=
  if runChain st r postStudentsChain then
    let (resp, st2) := postStudentsHandler st r.add r.remove r.courseId
    (resp, st2, true)
  else
    ({ status := 403, body := "" }, st, false)

/-- Processing of a request for `/courses/roster/<fname>`: the static route
has no middleware, so the file is looked up directly in the rosters media
directory and served when present (express.static semantics). -/
def serveRosterFile (st : DbState) (r : Request) (fname : String) : HttpResponse :=
  if runChain st r staticRosterChain then
    match st.rosterFiles.find? (fun kv => kv.1 == fname) with
    | some kv => { status := 200, body := kv.2 }
    | none => { status := 404, body := "" }
  else
    { status := 403, body := "" }

/-- Ordering of roster rows by their first component, the student
identifier. -/
def rosterRowLe (a b : String × String) : Prop := a.1 ≤ b.1

instance : DecidableRel rosterRowLe :=
  fun a b => inferInstanceAs (Decidable (a.1 ≤ b.1))

instance : IsTotal (String × String) rosterRowLe :=
  ⟨fun a b => le_total a.1 b.1⟩

instance : IsTrans (String × String) rosterRowLe :=
  ⟨fun _ _ _ hab hbc => le_trans hab hbc⟩

/-- Resolve a student identifier to its display name through the identity
collection; the identifier itself is used when no identity is found. -/
def displayName (st : DbState) (sid : String) : String :=
  match st.identities.find? (fun i => i.id == sid) with
  | some i => i.name
  | none => sid

/-- Modelled from the spec: `buildRoster` (section 4.3); the implementation
in `models/course.js` is not under `src/`.  Reads the course's roster,
resolves display attributes and returns the rows sorted by student
identifier. -/
def buildRoster (st : DbState) (cid : String) : List (String × String) :=
  match findCourse st cid with
  | none => []
  | some c =>
    List.insertionSort rosterRowLe (c.students.map (fun sid => (sid, displayName st sid)))

/-- One CSV data row: identifier and name, comma separated. -/
def csvRow (row : String × String) : String := row.1 ++ "," ++ row.2

/-- Serialize roster rows into CSV text: header row, then one row per
student. -/
def csvText (rows : List (String × String)) : String :=
  String.intercalate "\n" ("id,name" :: rows.map csvRow)

/-- Write a file into the media directory, overwriting an existing file with
the same name (exports are not versioned). -/
def putFile (files : List (String × String)) (key bytes : String) :
    List (String × String) :=
  match files with
  | [] => [(key, bytes)]
  | kv :: rest =>
    if kv.1 == key then (key, bytes) :: rest else kv :: putFile rest key bytes

/-- Modelled from the spec: `createCsv` / `exportRoster` (section 4.3); the
implementation in `models/course.js` is not under `src/`.  Serializes the
sorted roster rows, writes the artifact into the rosters media directory
keyed by course identifier (overwriting any prior export), and returns the
download reference. -/
def createCsv (st : DbState) (cid : String) : String × DbState :=
  let bytes := csvText (buildRoster st cid)
  let key := cid ++ ".csv"
  ("/courses/roster/" ++ key,
    { st with rosterFiles := putFile st.rosterFiles key bytes })

/-- Whitespace characters skipped by JavaScript `parseInt`. -/
def jsSpace (ch : Char) : Bool :=
  ch == ' ' || ch == '\t' || ch == '\n' || ch == '\r'

/-- Hexadecimal digit test for the `0x` form of `parseInt`. -/
def isHexDigit (ch : Char) : Bool :=
  ch.isDigit || ('a' ≤ ch && ch ≤ 'f') || ('A' ≤ ch && ch ≤ 'F')

/-- Numeric value of a hexadecimal digit. -/
def hexDigitVal (ch : Char) : Nat :=
  if ch.isDigit then ch.toNat - 48
  else if 'a' ≤ ch && ch ≤ 'f' then ch.toNat - 87
  else ch.toNat - 55

/-- Value of a list of decimal digit characters. -/
def decVal (ds : List Char) : Nat :=
  ds.foldl (fun acc ch => acc * 10 + (ch.toNat - 48)) 0

/-- Value of a list of hexadecimal digit characters. -/
def hexVal (ds : List Char) : Nat :=
  ds.foldl (fun acc ch => acc * 16 + hexDigitVal ch) 0

/-- Parse the longest leading run of decimal digits; none when there is no
digit (`parseInt` yields NaN). -/
def parseDecPart (sign : Int) (cs : List Char) : Option Int :=
  let ds := cs.takeWhile Char.isDigit
  if ds.isEmpty then none else some (sign * Int.ofNat (decVal ds))

/-- Parse the longest leading run of hexadecimal digits after `0x`. -/
def parseHexPart (sign : Int) (cs : List Char) : Option Int :=
  let ds := cs.takeWhile isHexDigit
  if ds.isEmpty then none else some (sign * Int.ofNat (hexVal ds))

/-- JavaScript `parseInt(s)` with no radix argument: skip leading
whitespace, read an optional sign, detect a `0x`/`0X` prefix, then parse the
longest leading digit run; `none` stands for NaN. -/
def parseIntJs (s : String) : Option Int :=
  let cs := s.toList.dropWhile jsSpace
  match cs with
  | '-' :: rest => parseIntDigits (-1) rest
  | '+' :: rest => parseIntDigits 1 rest
  | _ => parseIntDigits 1 cs
where
  parseIntDigits (sign : Int) (cs : List Char) : Option Int :=
    match cs with
    | '0' :: x :: rest =>
      if x == 'x' || x == 'X' then parseHexPart sign rest
      else parseDecPart sign ('0' :: x :: rest)
    | _ => parseDecPart sign cs

/-- The first argument the GET `/courses` handler passes to `getCoursePage`
(src/api/courses.js line 37): `parseInt(req.query.page) || 1`.  An absent
parameter gives NaN, and both NaN and 0 are falsy, so they fall back to 1;
any other parsed integer is passed through. -/
def pageArgument (page : Option String) : Int :=
  match page with
  | none => 1
  | some s =>
    match parseIntJs s with
    | none => 1
    | some n => if n = 0 then 1 else n

/-! ## Concrete example data (spec section 8's worked example) -/

/-- The example course: roster is the pair of students `a` and `b`, owned by
instructor `i1`. -/
def exCourse : Course :=
  ⟨"c1", "CS", "493", "sp24", "i1", ["a", "b"]⟩

/-- A concrete database state: three student identities, one instructor and
the example course. -/
def exSt : DbState :=
  { identities := [⟨"a", "Alice", Role.student⟩, ⟨"b", "Bob", Role.student⟩,
                   ⟨"d", "Dana", Role.student⟩, ⟨"i1", "Ivy", Role.instructor⟩],
    courses := [exCourse],
    rosterFiles := [] }

/-! ## Enrollment Mutator: all-or-nothing semantics -/

/-- Claim C1: a batch containing at least one invalid identifier (an add
identifier that does not name an existing student-role identity, or a remove
identifier not currently in the course's roster) is rejected as a whole and
the state — in particular the course's roster — is unchanged afterwards. -/
theorem invalid_batch_rejected (st : DbState) (c : Course) (add remove : List String)
    (cid : String) (hc : findCourse st cid = some c)
    (hbad : (∃ a ∈ add, isStudentIdentity st a = false) ∨
            (∃ x ∈ remove, c.students.contains x = false)) :
    (∃ off, (updateEnrollment st add remove cid).1 = EnrollResult.Rejected off) ∧
    (updateEnrollment st add remove cid).2 = st := by
  have hoff : offendingIds st c.students add remove ≠ [] := by
    rcases hbad with ⟨a, ha, hfa⟩ | ⟨x, hx, hfx⟩
    · exact List.ne_nil_of_mem (a := a)
        (by simp [offendingIds, List.mem_filter, ha, hfa])
    · have hfx2 : x ∉ c.students := by simpa using hfx
      exact List.ne_nil_of_mem (a := x)
        (by simp [offendingIds, List.mem_filter, hx, hfx2])
  have hne : (offendingIds st c.students add remove).isEmpty = false :=
    List.isEmpty_eq_false.mpr hoff
  refine ⟨⟨offendingIds st c.students add remove, ?_⟩, ?_⟩ <;>
    simp [updateEnrollment, hc, hne]

/-- Witness for C1 at the spec's example: roster `{a, b}`, add `{d}`,
remove `{a, z}` where `z` does not exist. -/
theorem invalid_batch_rejected_witness :
    (∃ off, (updateEnrollment exSt ["d"] ["a", "z"] "c1").1 = EnrollResult.Rejected off) ∧
    (updateEnrollment exSt ["d"] ["a", "z"] "c1").2 = exSt :=
  invalid_batch_rejected exSt exCourse ["d"] ["a", "z"] "c1" (by rfl)
    (Or.inr ⟨"z", by simp, by rfl⟩)

/-- `setCourseRoster` commutes with course lookup: the looked-up course comes
back with its roster replaced. -/
theorem find?_setCourseRoster (cs : List Course) (cid : String) (roster : List String) :
    (setCourseRoster cs cid roster).find? (fun c => c.courseId == cid) =
      (cs.find? (fun c => c.courseId == cid)).map
        (fun c => { c with students := roster }) := by
  induction cs with
  | nil => rfl
  | cons c rest ih =>
    simp only [setCourseRoster, List.map_cons] at ih ⊢
    by_cases h : c.courseId == cid
    · rw [if_pos h]
      have hrec : (({ c with students := roster } : Course).courseId == cid) = true := h
      rw [List.find?_cons_of_pos (p := fun (x : Course) => x.courseId == cid) _ hrec,
        List.find?_cons_of_pos (p := fun (x : Course) => x.courseId == cid) _ h]
      rfl
    · rw [if_neg h,
        List.find?_cons_of_neg (p := fun (x : Course) => x.courseId == cid) _ h,
        List.find?_cons_of_neg (p := fun (x : Course) => x.courseId == cid) _ h, ih]

/-- Membership in the roster produced by a valid, disjoint batch:
removals first, then additions, equals `(old union add) minus remove`. -/
theorem mem_applyRoster (roster add remove : List String) (x : String)
    (hdisj : ∀ a ∈ add, remove.contains a = false) :
    x ∈ applyRoster roster add remove ↔ ((x ∈ roster ∨ x ∈ add) ∧ x ∉ remove) := by
  have hdisj2 : ∀ a ∈ add, a ∉ remove := by
    intro a ha
    simpa using hdisj a ha
  by_cases hx : x ∈ add
  · have hxr : x ∉ remove := hdisj2 x hx
    simp only [applyRoster, List.mem_append, List.mem_filter, Bool.not_eq_true',
      List.elem_eq_mem, decide_eq_false_iff_not]
    tauto
  · simp only [applyRoster, List.mem_append, List.mem_filter, Bool.not_eq_true',
      List.elem_eq_mem, decide_eq_false_iff_not]
    tauto

/-- Claim C2 as stated is refuted by the overlap case: in the example state,
the batch add `{a}`, remove `{a}` has every add identifier naming an existing
student-role identity and every remove identifier currently in the roster,
yet it is not applied (the Enrollment Mutator treats an identifier appearing
in both sets as a validation error and rejects the batch). -/
theorem overlapping_valid_batch_not_applied :
    (∀ a ∈ ["a"], isStudentIdentity exSt a = true) ∧
    (∀ x ∈ ["a"], exCourse.students.contains x = true) ∧
    findCourse exSt "c1" = some exCourse ∧
    ((updateEnrollment exSt ["a"] ["a"] "c1").1).isApplied = false := by
  refine ⟨?_, ?_, rfl, rfl⟩ <;> simp [exSt, exCourse, isStudentIdentity]

/-- Claim C2, amended: when additionally the add and remove sets are
disjoint, the batch is applied and the resulting roster equals
`(oldRoster union add) minus remove`. -/
theorem valid_disjoint_batch_applied (st : DbState) (c : Course)
    (add remove : List String) (cid : String)
    (hc : findCourse st cid = some c)
    (hadd : ∀ a ∈ add, isStudentIdentity st a = true)
    (hrem : ∀ x ∈ remove, c.students.contains x = true)
    (hdisj : ∀ a ∈ add, remove.contains a = false) :
    ((updateEnrollment st add remove cid).1).isApplied = true ∧
    ∃ c2, findCourse (updateEnrollment st add remove cid).2 cid = some c2 ∧
      ∀ x, x ∈ c2.students ↔ ((x ∈ c.students ∨ x ∈ add) ∧ x ∉ remove) := by
  have hoff : offendingIds st c.students add remove = [] := by
    simp only [offendingIds, List.append_eq_nil, List.filter_eq_nil_iff]
    refine ⟨⟨fun a ha => ?_, fun x hx => ?_⟩, fun a ha => ?_⟩
    · simp [hadd a ha]
    · simpa using hrem x hx
    · simpa using hdisj a ha
  have hemp : (offendingIds st c.students add remove).isEmpty = true := by
    simp [hoff]
  refine ⟨by simp [updateEnrollment, hc, hemp, EnrollResult.isApplied], ?_⟩
  refine ⟨{ c with students := applyRoster c.students add remove }, ?_, ?_⟩
  · have h2 : (updateEnrollment st add remove cid).2 =
        { st with courses :=
            setCourseRoster st.courses cid (applyRoster c.students add remove) } := by
      simp [updateEnrollment, hc, hemp]
    rw [h2]
    show (setCourseRoster st.courses cid (applyRoster c.students add remove)).find?
        (fun c => c.courseId == cid) = _
    rw [find?_setCourseRoster]
    show (findCourse st cid).map _ = _
    rw [hc]
    rfl
  · intro x
    exact mem_applyRoster c.students add remove x hdisj

/-- Witness for the amended C2 at the spec's example: roster `{a, b}`,
add `{d}`, remove `{a}` is applied. -/
theorem valid_disjoint_batch_applied_witness :
    ((updateEnrollment exSt ["d"] ["a"] "c1").1).isApplied = true :=
  (valid_disjoint_batch_applied exSt exCourse ["d"] ["a"] "c1" (by rfl)
    (by simp [exSt, isStudentIdentity]) (by simp [exCourse]) (by simp)).1

/-! ## The POST students handler's responses -/

/-- Claim C3 is refuted at a concrete input: two rejected batches failing on
different identifiers (`z1` vs `z2`) get byte-identical responses, whose body
is the fixed error message — the response does not identify which
identifiers failed validation. -/
theorem rejected_batches_get_identical_responses :
    (updateEnrollment exSt [] ["z1"] "c1").1 = EnrollResult.Rejected ["z1"] ∧
    (updateEnrollment exSt [] ["z2"] "c1").1 = EnrollResult.Rejected ["z2"] ∧
    (postStudentsHandler exSt [] ["z1"] "c1").1 =
      (postStudentsHandler exSt [] ["z2"] "c1").1 ∧
    (postStudentsHandler exSt [] ["z1"] "c1").1.body = enrollmentErrorMessage :=
  ⟨rfl, rfl, rfl, rfl⟩

/-- Claim C3, amended: every rejected enrollment batch is reported to the
caller as a 400 response whose body is the fixed generic error message; the
offending identifiers are not included in the response. -/
theorem rejected_batch_generic_error_message (st : DbState)
    (add remove : List String) (cid : String) (off : List String)
    (h : (updateEnrollment st add remove cid).1 = EnrollResult.Rejected off) :
    (postStudentsHandler st add remove cid).1 =
      { status := 400, body := enrollmentErrorMessage } := by
  unfold postStudentsHandler
  rcases hu : updateEnrollment st add remove cid with ⟨r, st2⟩
  rw [hu] at h
  simp only at h
  subst h
  simp [EnrollResult.isApplied]

/-- Witness for the amended C3: a batch removing a non-member is answered
with the 400 generic-message response. -/
theorem rejected_batch_generic_error_message_witness :
    (postStudentsHandler exSt [] ["z"] "c1").1 =
      { status := 400, body := enrollmentErrorMessage } :=
  rejected_batch_generic_error_message exSt [] ["z"] "c1" ["z"] (by rfl)

/-- Claim C4 is refuted at a concrete input: two applied batches with
different resulting roster sizes (1 vs 3) get byte-identical responses whose
body is empty — the success response does not carry the resulting roster
size. -/
theorem applied_batches_get_identical_responses :
    (updateEnrollment exSt [] ["a"] "c1").1 = EnrollResult.Applied 1 ∧
    (updateEnrollment exSt ["d"] [] "c1").1 = EnrollResult.Applied 3 ∧
    (postStudentsHandler exSt [] ["a"] "c1").1 =
      (postStudentsHandler exSt ["d"] [] "c1").1 ∧
    (postStudentsHandler exSt [] ["a"] "c1").1.body = "" :=
  ⟨rfl, rfl, rfl, rfl⟩

/-- Claim C4, amended: every successfully applied enrollment batch is
reported to the caller as a 201 response with an empty body; the resulting
roster size computed by the Enrollment Mutator is discarded by the
handler. -/
theorem applied_batch_empty_created_response (st : DbState)
    (add remove : List String) (cid : String) (n : Nat)
    (h : (updateEnrollment st add remove cid).1 = EnrollResult.Applied n) :
    (postStudentsHandler st add remove cid).1 = { status := 201, body := "" } := by
  unfold postStudentsHandler
  rcases hu : updateEnrollment st add remove cid with ⟨r, st2⟩
  rw [hu] at h
  simp only at h
  subst h
  simp [EnrollResult.isApplied]

/-- Witness for the amended C4 at the spec's example batch. -/
theorem applied_batch_empty_created_response_witness :
    (postStudentsHandler exSt ["d"] ["a"] "c1").1 = { status := 201, body := "" } :=
  applied_batch_empty_created_response exSt ["d"] ["a"] "c1" 2 (by rfl)

/-! ## Route gating -/

/-- Claim C5: course listing and plain course reads are not gated by the
Authorization Engine.  GET `/courses` invokes its handler on every request,
GET `/courses/:courseId` invokes its handler exactly when the course exists,
and the outcome of either route is independent of the resolved principal
(in particular, an unauthenticated request is served the same way). -/
theorem read_course_routes_not_auth_gated (st : DbState) (r : Request) :
    runChain st r getCoursesChain = true ∧
    runChain st r getCourseByIdChain = (findCourse st r.courseId).isSome ∧
    (∀ a : Option Identity,
      runChain st { r with auth := a } getCoursesChain =
        runChain st r getCoursesChain) ∧
    (∀ a : Option Identity,
      runChain st { r with auth := a } getCourseByIdChain =
        runChain st r getCourseByIdChain) := by
  refine ⟨rfl, ?_, fun a => rfl, fun a => ?_⟩
  · simp [runChain, getCourseByIdChain, evalMiddleware]
  · simp [runChain, getCourseByIdChain, evalMiddleware]

/-- Claim C6: course creation and deletion are admin-only — for a principal
whose role is not admin, the POST `/courses` and DELETE `/courses/:courseId`
middleware chains fail (the `authorizeAdminAccess` middleware denies), so
neither handler runs. -/
theorem create_delete_admin_only (st : DbState) (r : Request) (p : Identity)
    (hp : r.auth = some p) (hrole : p.role ≠ Role.admin) :
    runChain st r postCoursesChain = false ∧
    runChain st r deleteCourseChain = false := by
  have hadm : evalMiddleware st r Middleware.authorizeAdminAccess = false := by
    simp only [evalMiddleware, hp]
    exact beq_eq_false_iff_ne.mpr hrole
  constructor <;>
    simp [runChain, postCoursesChain, deleteCourseChain, hadm]

/-- A concrete instructor request against the example course. -/
def exInstructorReq : Request :=
  { auth := some ⟨"i1", "Ivy", Role.instructor⟩, courseId := "c1",
    add := [], remove := [], page := none,
    bodyValid := true, enrollmentBodyValid := true, instructorIdValid := true }

/-- Witness for C6: the course's own instructor is still denied course
creation and deletion. -/
theorem create_delete_admin_only_witness :
    runChain exSt exInstructorReq postCoursesChain = false ∧
    runChain exSt exInstructorReq deleteCourseChain = false :=
  create_delete_admin_only exSt exInstructorReq ⟨"i1", "Ivy", Role.instructor⟩
    rfl (by decide)

/-- Claim C7: the Enrollment Mutator is never invoked on an unauthorized
request — whenever processing POST `/courses/:courseId/students` reaches
`updateEnrollment` (the invocation flag of `postStudentsRoute` is set), both
`requireAuthentication` and the course-related authorization middleware
passed on that request. -/
theorem enrollment_mutator_gated (st : DbState) (r : Request)
    (h : (postStudentsRoute st r).2.2 = true) :
    evalMiddleware st r Middleware.requireAuthentication = true ∧
    evalMiddleware st r
      (Middleware.authorizeCourseRelatedAccess Operation.MutateRoster) = true := by
  by_cases hc : runChain st r postStudentsChain = true
  · have hall := hc
    simp only [runChain, postStudentsChain, List.all_cons, List.all_nil,
      Bool.and_eq_true, Bool.and_true] at hall
    exact ⟨hall.1, hall.2.2.1⟩
  · exfalso
    simp [postStudentsRoute, hc] at h

/-- A concrete admin request enrolling student `d` into the example
course. -/
def exAdminReq : Request :=
  { auth := some ⟨"adm", "Ada", Role.admin⟩, courseId := "c1",
    add := ["d"], remove := [], page := none,
    bodyValid := true, enrollmentBodyValid := true, instructorIdValid := true }

/-- Witness for C7: on the admin request the mutator is invoked, hence both
gates passed. -/
theorem enrollment_mutator_gated_witness :
    evalMiddleware exSt exAdminReq Middleware.requireAuthentication = true ∧
    evalMiddleware exSt exAdminReq
      (Middleware.authorizeCourseRelatedAccess Operation.MutateRoster) = true :=
  enrollment_mutator_gated exSt exAdminReq (by rfl)

/-- Claim C9: exported roster artifacts are retrievable with no access
control — the static `/courses/roster` route carries no middleware, and a
completely unauthenticated request is served any file present in the rosters
media directory. -/
theorem roster_files_served_without_auth (st : DbState) (r : Request)
    (fname bytes : String) (_hanon : r.auth = none)
    (hfile : st.rosterFiles.find? (fun kv => kv.1 == fname) = some (fname, bytes)) :
    serveRosterFile st r fname = { status := 200, body := bytes } ∧
    staticRosterChain = [] := by
  refine ⟨?_, rfl⟩
  simp [serveRosterFile, runChain, staticRosterChain, hfile]

/-- A state holding one exported roster file. -/
def exRosterSt : DbState :=
  { identities := [], courses := [],
    rosterFiles := [("c1.csv", "id,name\nb,Bob")] }

/-- A completely unauthenticated request. -/
def exAnonReq : Request :=
  { auth := none, courseId := "c1", add := [], remove := [], page := none,
    bodyValid := false, enrollmentBodyValid := false, instructorIdValid := false }

/-- Witness for C9: the anonymous request downloads the exported roster. -/
theorem roster_files_served_without_auth_witness :
    serveRosterFile exRosterSt exAnonReq "c1.csv" =
      { status := 200, body := "id,name\nb,Bob" } ∧
    staticRosterChain = [] :=
  roster_files_served_without_auth exRosterSt exAnonReq "c1.csv" "id,name\nb,Bob"
    rfl (by rfl)

/-! ## Roster export -/

/-- Overwriting a file with the same name and bytes twice is the same as
doing it once. -/
theorem putFile_putFile (fs : List (String × String)) (k b : String) :
    putFile (putFile fs k b) k b = putFile fs k b := by
  induction fs with
  | nil => simp [putFile]
  | cons kv rest ih =>
    by_cases h : kv.1 == k
    · simp [putFile, h]
    · simp [putFile, h, ih]

/-- After `putFile`, looking the file up by name finds exactly the written
bytes. -/
theorem find?_putFile (fs : List (String × String)) (k b : String) :
    (putFile fs k b).find? (fun kv => kv.1 == k) = some (k, b) := by
  induction fs with
  | nil => simp [putFile]
  | cons kv rest ih =>
    by_cases h : kv.1 == k
    · simp [putFile, h]
    · simp [putFile, h, ih]

/-- The rows produced by `buildRoster` are sorted by student identifier. -/
theorem buildRoster_sorted (st : DbState) (cid : String) :
    List.Sorted rosterRowLe (buildRoster st cid) := by
  unfold buildRoster
  cases findCourse st cid with
  | none => exact List.sorted_nil
  | some c => exact List.sorted_insertionSort rosterRowLe _

/-- Claim C8: roster export is deterministic and idempotent.  Running
`createCsv` a second time with no intervening roster change leaves the state
exactly as after the first run (so the stored artifact is byte-identical)
and returns the same reference; the artifact stored by a run is the CSV of
the course's current roster; and the data rows are sorted by student
identifier. -/
theorem export_roster_idempotent_sorted (st : DbState) (cid : String) :
    (createCsv (createCsv st cid).2 cid).2 = (createCsv st cid).2 ∧
    (createCsv (createCsv st cid).2 cid).1 = (createCsv st cid).1 ∧
    ((createCsv st cid).2).rosterFiles.find? (fun kv => kv.1 == cid ++ ".csv") =
      some (cid ++ ".csv", csvText (buildRoster st cid)) ∧
    List.Sorted rosterRowLe (buildRoster st cid) := by
  refine ⟨?_, rfl, ?_, buildRoster_sorted st cid⟩
  · show ({ st with
      rosterFiles := putFile (putFile st.rosterFiles (cid ++ ".csv") (csvText (buildRoster st cid))) (cid ++ ".csv") (csvText (buildRoster st cid)) } : DbState) =
      { st with
        rosterFiles := putFile st.rosterFiles (cid ++ ".csv") (csvText (buildRoster st cid)) }
    rw [putFile_putFile]
  · exact find?_putFile st.rosterFiles (cid ++ ".csv") (csvText (buildRoster st cid))

/-! ## Page parameter handling -/

/-- Claim C10: the GET `/courses` handler passes `getCoursePage` the page
argument `parseInt(req.query.page) || 1` — an absent parameter, a value that
does not parse to an integer, and a value parsing to 0 all yield 1, while a
value parsing to any other integer (negative ones included) is passed
through unchanged. -/
theorem page_argument_parsing (q : Option String) :
    (q = none → pageArgument q = 1) ∧
    (∀ s, q = some s → parseIntJs s = none → pageArgument q = 1) ∧
    (∀ s, q = some s → parseIntJs s = some 0 → pageArgument q = 1) ∧
    (∀ s n, q = some s → parseIntJs s = some n → n ≠ 0 → pageArgument q = n) := by
  refine ⟨?_, ?_, ?_, ?_⟩
  · rintro rfl
    rfl
  · rintro s rfl h
    simp [pageArgument, h]
  · rintro s rfl h
    simp [pageArgument, h]
  · rintro s n rfl h hn
    simp [pageArgument, h, hn]

/-- Witness for C10: the query string `-3` parses to the negative integer
`-3`, which is passed through unchanged. -/
theorem page_argument_parsing_witness : pageArgument (some "-3") = -3 :=
  (page_argument_parsing (some "-3")).2.2.2 "-3" (-3) rfl (by rfl) (by decide)

end Tarpaulin
